import Mathlib

/-!
Verification development for the Ticket to Ride engine in
`internal/types.py`: a shallow embedding of the Deck operations, of the
pieces of the Game state read by `Game.validMoves`, of `initBoard`, and of
the player mutation performed by `Game.__init__` (which `Game.clone`
triggers on the original player objects).  Line numbers in the doc
comments refer to `internal/types.py`.
-/

namespace TTR

/-! ## Deck (class Deck, lines 21-68)

The field `Deck.cards` is a `collections.deque`.  We model the deque as a
list whose head is the LEFT end of the deque.  `Deck.draw` pops from the
RIGHT end (`deque.pop`), and `Deck.insert` performs repeated
`deque.appendleft`.  The draw-order view of a modelled deck `d` (first
card to be drawn first) is therefore `d.reverse`. -/

variable {α : Type}

/-- Model of the value of the Python expression `shuffle(list(self.cards))`
in line 49: `random.shuffle` permutes its argument in place and returns the
Python value `None`.  The argument here is the temporary `list(self.cards)`,
so the only observable outcome of the call is the returned `None`,
modelled as `Option.none`. -/
def randomShuffleReturn (_cards : List α) : Option (List α) :=
  none

/-- Model of `deque(reShuffled)` in line 50, where `reShuffled` is the value
bound from `random.shuffle`: `deque(None)` raises
`TypeError: NoneType object is not iterable`; `deque(xs)` for a list `xs`
builds a deque holding `xs`. -/
def dequeOfShuffleResult : Option (List α) → Except String (List α)
  | none => Except.error "TypeError: NoneType object is not iterable"
  | some xs => Except.ok xs

/-- Model of `Deck.shuffle` (lines 44-50): assert the deck is non-empty,
then run `reShuffled = shuffle(list(self.cards))` followed by
`self.cards = deque(reShuffled)`.  The result is the new content of
`self.cards`, or the exception raised. -/
def Deck.shuffleStep (cards : List α) : Except String (List α) :=
  if cards.length > 0 then
    dequeOfShuffleResult (randomShuffleReturn cards)
  else
    Except.error "AssertionError: cannot shuffle an empty deck"

/-- Model of `Deck.draw` (lines 52-60): assert the deck is non-empty, then
pop `number` cards from the right end of the deque, collecting them in pop
order; if the deque runs out before `number` pops, `deque.pop` raises
`IndexError`.  On success the result is (cards drawn in pop order,
remaining deck). -/
def Deck.draw (cards : List α) (number : Nat) : Except String (List α × List α) :=
  if cards.length = 0 then
    Except.error "AssertionError: cannot draw from an empty deck"
  else if cards.length < number then
    Except.error "IndexError: pop from an empty deque"
  else
    Except.ok (cards.reverse.take number, (cards.reverse.drop number).reverse)

/-- Model of `Deck.insert` (lines 62-68): `appendleft` of each card of
`cards` in order onto the deque `deck`. -/
def Deck.insert (cards deck : List α) : List α :=
  cards.foldl (fun d c => c :: d) deck

/-- Model of `Deck.count` (lines 38-42). -/
def Deck.count (cards : List α) : Nat :=
  cards.length

/-! ## Routes, actions and the board (classes Route and Action, initBoard)

Board edges carry the networkx attribute dict
`weight / color / owner / index` (line 386); `owner` is the Python value
`None` right after `initBoard`, or a string once set, modelled as
`Option String`.  `Action` is the four-variant tagged union of lines
114-145; the integer tag is recovered by `Action.kind`. -/

structure Route where
  city1 : String
  city2 : String
  weight : Nat
  color : String
  index : Nat
deriving DecidableEq

structure EdgeData where
  city1 : String
  city2 : String
  weight : Nat
  color : String
  owner : Option String
  index : Nat
deriving DecidableEq

inductive Action where
  | claimRoute (route : Route) (colorsUsed : List String)
  | drawFaceUp (colorToDraw : String)
  | drawFaceDown
  | destDeal (askingForDeal : Bool) (takeDests : Option (List Nat))
deriving DecidableEq

/-- The integer stored in `Action.action` (line 124) for each variant. -/
def Action.kind : Action → Nat
  | .claimRoute _ _ => 0
  | .drawFaceUp _ => 1
  | .drawFaceDown => 2
  | .destDeal _ _ => 3

/-- True exactly on the route-claim variant (`action == 0`). -/
def Action.isClaim : Action → Bool
  | .claimRoute _ _ => true
  | _ => false

/-- The dict `color_indexing` of line 399 (insertion order preserved). -/
def color_indexing : List (String × Nat) :=
  [("PINK", 0), ("WHITE", 1), ("BLUE", 2), ("YELLOW", 3), ("ORANGE", 4),
   ("BLACK", 5), ("RED", 6), ("GREEN", 7), ("WILD", 8)]

/-- `color_indexing.keys()`, in dict order, as iterated at line 273. -/
def colorIndexingKeys : List String :=
  color_indexing.map Prod.fst

/-- The fields of class Agent (lines 147-162) that the modelled operations
read or write.  The belief table `colorCounts` is never touched by
`validMoves` or by the `__init__` player loop and is omitted. -/
structure Agent where
  name : String
  points : Int
  trainsLeft : Nat
  turnOrder : Option Nat
  trainCards : List String
deriving DecidableEq

/-- Class Destination (lines 70-89). -/
structure Destination where
  city1 : String
  city2 : String
  points : Nat
  index : Nat
deriving DecidableEq

/-- The fields of class Game (lines 167-201) read or written by
`validMoves`.  `movePerforming = none` is the Python `None` (FreeChoice
phase); decks are the deque contents, whose `count()` is the length.
Fields `validMoves` never touches (map, doLogs, drawGame, lastTurn,
colorPicked, turn, wildPicked, gameLogs, destinationDeal,
destinationCards, players) are omitted; the player list is modelled
separately for the `__init__`/`clone` analysis. -/
structure Game where
  gameOver : Bool
  movePerforming : Option Action
  board : List EdgeData
  faceUpCards : List String
  trainCarDeck : List String
  destinationsDeck : List Destination
  makingNextMove : Agent
  endedGame : Option Nat
deriving DecidableEq

/-- One color pass of the route-claim enumeration: the body at lines
259-271 (concrete-color routes) and lines 275-288 (one iteration of the
gray-route color loop).  The gray block writes the `==` and `>` tests as
two separate `if`s where the concrete block uses `if`/`elif`, but the two
conditions are mutually exclusive, so both blocks compute the same list. -/
def perColorActions (trainCards : List String) (numWilds weight : Nat)
    (routeType : Route) (color : String) : List Action :=
  let numColor := trainCards.count color
  if numColor = 0 then []
  else if numColor < weight then
    if numWilds > 0 then
      if numWilds + numColor = weight then
        [Action.claimRoute routeType [color, "WILD"]]
      else if numWilds + numColor > weight then
        [Action.claimRoute routeType [color, "WILD"]] ++
          (if numWilds < weight then [Action.claimRoute routeType ["WILD", color]] else [])
      else []
    else []
  else
    [Action.claimRoute routeType [color]] ++
      (if 0 < numWilds ∧ numWilds < weight then [Action.claimRoute routeType ["WILD", color]] else [])

/-- The claim actions contributed by one board edge in the FreeChoice
branch of `validMoves` (lines 250-290).  Line 252 skips every edge whose
`owner` attribute differs from the empty string (in particular the
freshly initialized `owner = None`). -/
def routeActions (trainCards : List String) (numWilds : Nat) (e : EdgeData) : List Action :=
  if e.owner ≠ some "" then []
  else
    let routeType : Route := ⟨e.city1, e.city2, e.weight, e.color, e.index⟩
    if e.color ≠ "GRAY" then
      perColorActions trainCards numWilds e.weight routeType e.color
    else
      (colorIndexingKeys.flatMap (fun c => perColorActions trainCards numWilds e.weight routeType c)) ++
        (if numWilds ≥ e.weight then [Action.claimRoute routeType ["WILD"]] else [])

/-- `listDestTakes` (lines 391-392). -/
def listDestTakes : List (List Nat) :=
  [[0], [1], [2], [0, 1], [0, 2], [1, 2], [0, 1, 2]]

/-- The action list built by `Game.validMoves` before the final
empty-check (lines 247-309).  `movePerforming.action == 0` has no branch,
so a claim-in-progress phase contributes nothing. -/
def rawActions (g : Game) : List Action :=
  match g.movePerforming with
  | none =>
    let numWilds := g.makingNextMove.trainCards.count "WILD"
    g.board.flatMap (routeActions g.makingNextMove.trainCards numWilds) ++
      (if g.faceUpCards.length > 0 then g.faceUpCards.map Action.drawFaceUp else []) ++
      (if g.trainCarDeck.length > 0 then [Action.drawFaceDown] else []) ++
      (if 3 ≤ g.destinationsDeck.length then [Action.destDeal true none] else [])
  | some (Action.claimRoute _ _) => []
  | some (Action.drawFaceUp _) =>
    (g.faceUpCards.filter (fun c => c != "WILD")).map Action.drawFaceUp ++
      (if 1 ≤ g.trainCarDeck.length then [Action.drawFaceDown] else [])
  | some Action.drawFaceDown =>
    g.faceUpCards.map Action.drawFaceUp ++
      (if 1 ≤ g.trainCarDeck.length then [Action.drawFaceDown] else [])
  | some (Action.destDeal _ _) =>
    listDestTakes.map (fun t => Action.destDeal false (some t))

/-- `Game.validMoves` (lines 240-316): returns the updated game paired with
the action list.  A game already over returns the empty list unchanged
(line 246); when the enumeration comes back empty the method flips
`gameOver` and stores `makingNextMove.turnOrder` into `endedGame`
(lines 311-313). -/
def validMoves (g : Game) : Game × List Action :=
  if g.gameOver then (g, [])
  else
    let actionList := rawActions g
    if actionList.length = 0 then
      ({ g with gameOver := true, endedGame := g.makingNextMove.turnOrder }, [])
    else
      (g, actionList)

/-- `networkx.MultiGraph.has_edge` against the board built so far: true
when some already-added edge joins the two cities, in either
orientation. -/
def hasEdge (board : List EdgeData) (c1 c2 : String) : Bool :=
  board.any (fun e => (e.city1 == c1 && e.city2 == c2) || (e.city1 == c2 && e.city2 == c1))

/-- The attribute dict attached to a parsed route by `initBoard`
(lines 386 and 388): `owner` starts as Python `None`. -/
def routeToEdge (r : Route) : EdgeData :=
  ⟨r.city1, r.city2, r.weight, r.color, none, r.index⟩

/-- `initBoard` (lines 380-389): with 4 players every parsed route becomes
an edge; otherwise a route is dropped when an edge between its two cities
was already added.  Every added edge has `owner = None`. -/
def initBoard (routes : List Route) (players : Nat) : List EdgeData :=
  if players = 4 then routes.map routeToEdge
  else
    routes.foldl
      (fun b r => if hasEdge b r.city1 r.city2 then b else b ++ [routeToEdge r]) []

/-- The cards popped by a `Deck.draw` call that succeeds (deck large
enough): the `number` right-end cards in pop order. -/
def drawTake (cards : List α) (number : Nat) : List α :=
  cards.reverse.take number

/-- The deck remaining after a successful `Deck.draw` call. -/
def drawRest (cards : List α) (number : Nat) : List α :=
  (cards.reverse.drop number).reverse

/-- The player loop at the end of `Game.__init__` (lines 198-200): each
Agent object of the GIVEN list has `turnOrder` assigned and its
`trainCards` overwritten with 4 cards drawn from the new train-car deck
(which already gave up 5 face-up cards at line 194).  Returns the mutated
players and the remaining deck. -/
def initPlayersLoop : List Agent → Nat → List String → List Agent × List String
  | [], _, deck => ([], deck)
  | p :: ps, i, deck =>
    let p2 := { p with turnOrder := some i, trainCards := drawTake deck 4 }
    let r := initPlayersLoop ps (i + 1) (drawRest deck 4)
    (p2 :: r.1, r.2)

/-- The effect of `Game.clone` (line 211) on the ORIGINAL Game object:
`Game(self.map, self.players, False, False)` receives the original Agent
objects (no copy is taken before the constructor runs), draws 5 face-up
cards from a freshly shuffled 110-card deck, and then runs the player loop
on those original objects, overwriting their hands.  `freshDeck` is the
new shuffled train-car deck of the clone. -/
def clonePlayersAfter (freshDeck : List String) (players : List Agent) : List Agent :=
  (initPlayersLoop players 0 (drawRest freshDeck 5)).1

/-! ## Spec-side definition for the refinement comparison of C2 -/

/-- Spec section 4.3, concrete-color case, written from the words of the
spec (not from the code) for the refinement comparison in C2: the
three-way numColor analysis giving the exact payment variants a player
may use on a route of the given weight and concrete color. -/
def specConcreteVariants (numColor numWilds weight : Nat)
    (routeType : Route) (color : String) : List Action :=
  if numColor = 0 then []
  else if numColor < weight then
    if numWilds + numColor = weight then
      [Action.claimRoute routeType [color, "WILD"]]
    else if numWilds + numColor > weight then
      [Action.claimRoute routeType [color, "WILD"]] ++
        (if numWilds < weight then [Action.claimRoute routeType ["WILD", color]] else [])
    else []
  else
    [Action.claimRoute routeType [color]] ++
      (if 0 < numWilds ∧ numWilds < weight then [Action.claimRoute routeType ["WILD", color]] else [])

/-! ## Concrete states used by the closed theorems and witnesses -/

/-- A 2-player seat holder with an empty hand. -/
def dummyAgent : Agent :=
  ⟨"P", 0, 45, some 0, []⟩

/-- Scenario C of the spec: an unowned gray route of length 3. -/
def grayRouteC1 : Route :=
  ⟨"DENVER", "SANTAFE", 3, "GRAY", 0⟩

def grayEdgeC1 : EdgeData :=
  ⟨"DENVER", "SANTAFE", 3, "GRAY", some "", 0⟩

/-- Scenario C state: the active player holds exactly 4 wildcards. -/
def gameC1 : Game :=
  ⟨false, none, [grayEdgeC1], [], [], [], ⟨"P0", 0, 45, some 0, ["WILD", "WILD", "WILD", "WILD"]⟩, none⟩

/-- An unowned gray route of length 4, for the second C1 refutation. -/
def grayRouteC1b : Route :=
  ⟨"A", "B", 4, "GRAY", 1⟩

def grayEdgeC1b : EdgeData :=
  ⟨"A", "B", 4, "GRAY", some "", 1⟩

/-- The active player holds exactly 2 wildcards, fewer than the length 4. -/
def gameC1b : Game :=
  ⟨false, none, [grayEdgeC1b], [], [], [], ⟨"P0", 0, 45, some 0, ["WILD", "WILD"]⟩, none⟩

/-- Scenario A of the spec: an unowned RED route of length 3. -/
def edgeC2 : EdgeData :=
  ⟨"X", "Y", 3, "RED", some "", 5⟩

/-- Scenario A state: the active player holds 3 RED cards and no wildcard. -/
def gameC2 : Game :=
  ⟨false, none, [edgeC2], [], [], [], ⟨"P", 0, 45, some 0, ["RED", "RED", "RED"]⟩, none⟩

/-- Original players for the C3 clone analysis: player 0 holds five RED
cards, player 1 holds one GREEN card. -/
def p0C3 : Agent :=
  ⟨"P0", 0, 45, some 0, ["RED", "RED", "RED", "RED", "RED"]⟩

def p1C3 : Agent :=
  ⟨"P1", 0, 45, some 1, ["GREEN"]⟩

/-- One parsed route for the C4 witness board. -/
def routeC4 : Route :=
  ⟨"A", "B", 3, "RED", 0⟩

/-- A fresh 2-player game state on `initBoard [routeC4] 2` in the
FreeChoice phase whose player could afford the route if it were marked
unowned by the enumeration. -/
def gameC4 : Game :=
  ⟨false, none, initBoard [routeC4] 2, ["RED"], ["RED"], [], ⟨"Q", 0, 45, some 0, ["RED", "RED", "RED"]⟩, none⟩

/-- ContinuingVisibleDraw with an all-wildcard face-up window and an empty
hidden deck: the C8 counterexample state. -/
def gameC8bad : Game :=
  ⟨false, some (Action.drawFaceUp "RED"), [], ["WILD", "WILD", "WILD", "WILD", "WILD"], [], [], dummyAgent, none⟩

/-- ContinuingVisibleDraw with one wildcard face-up card and a 1-card
hidden deck: the C8 amended-claim witness state. -/
def gameC8w : Game :=
  ⟨false, some (Action.drawFaceUp "BLUE"), [], ["WILD"], ["RED"], [], dummyAgent, none⟩

/-- A game already over while a destination deal is in progress: the C9
counterexample state. -/
def gameC9bad : Game :=
  ⟨true, some (Action.destDeal true none), [], [], [], [], dummyAgent, none⟩

/-- A live game with a destination deal in progress: the C9 witness. -/
def gameC9w : Game :=
  ⟨false, some (Action.destDeal true none), [], [], [], [], dummyAgent, none⟩

/-- FreeChoice with nothing available anywhere: enumeration comes back
empty, the C10 witness state. -/
def stuckGame : Game :=
  ⟨false, none, [], [], [], [], dummyAgent, none⟩

/-! ## Theorems -/

theorem validMoves_snd (g : Game) :
    (validMoves g).2 = if g.gameOver then [] else rawActions g := by
  unfold validMoves
  by_cases hg : g.gameOver
  · simp [hg]
  · simp only [hg, if_false, Bool.false_eq_true]
    by_cases hr : (rawActions g).length = 0
    · have h0 : rawActions g = [] := List.length_eq_zero.mp hr
      simp [hr, h0]
    · simp [hr]

/-- C10: whenever `validMoves` returns an empty list, the returned state
has `gameOver = true`; and when the game was not already over, the stuck
player (the `turnOrder` of `makingNextMove`) is recorded in `endedGame`. -/
theorem c10_empty_enumeration_terminal (g : Game)
    (h : (validMoves g).2 = []) :
    (validMoves g).1.gameOver = true ∧
    (g.gameOver = false → (validMoves g).1.endedGame = g.makingNextMove.turnOrder) := by
  by_cases hg : g.gameOver
  · constructor
    · simp [validMoves, hg]
    · intro hfalse
      rw [hfalse] at hg
      exact absurd hg (by simp)
  · have hr : (rawActions g).length = 0 := by
      rw [validMoves_snd] at h
      simp [hg] at h
      simp [h]
    constructor
    · simp [validMoves, hg, hr]
    · intro _
      simp [validMoves, hg, hr]

/-- Witness for C10 at a concrete stuck state: empty board, empty face-up
window, empty decks, FreeChoice phase. -/
theorem c10_empty_enumeration_terminal_witness :
    (validMoves stuckGame).1.gameOver = true ∧
    (stuckGame.gameOver = false →
      (validMoves stuckGame).1.endedGame = stuckGame.makingNextMove.turnOrder) :=
  c10_empty_enumeration_terminal stuckGame (by decide)

/-- C9 counterexample: in the state `gameC9bad` a destination deal is in
progress (`movePerforming.action == 3`), yet `validMoves` returns zero
actions rather than 7, because line 246 returns early on the `gameOver`
component of the state. -/
theorem c9_destination_counterexample :
    (validMoves gameC9bad).2 = [] ∧ (validMoves gameC9bad).2.length ≠ 7 := by
  decide

/-- C9 amended: whenever the game is NOT already over and a destination
deal is in progress, `validMoves` returns exactly the 7
DestinationDecision actions, one per non-empty subset of the dealt
indices 0, 1, 2, regardless of every other component of the state. -/
theorem c9_destination_subsets (g : Game) (ask : Bool) (tds : Option (List Nat))
    (hover : g.gameOver = false)
    (hmp : g.movePerforming = some (Action.destDeal ask tds)) :
    (validMoves g).2 = listDestTakes.map (fun t => Action.destDeal false (some t)) ∧
    (validMoves g).2.length = 7 := by
  have hv : (validMoves g).2 = rawActions g := by
    rw [validMoves_snd, hover]
    simp
  rw [hv]
  constructor
  · simp [rawActions, hmp]
  · simp [rawActions, hmp, listDestTakes]

/-- Witness for the amended C9 at the concrete live state `gameC9w`. -/
theorem c9_destination_subsets_witness :
    (validMoves gameC9w).2 = listDestTakes.map (fun t => Action.destDeal false (some t)) ∧
    (validMoves gameC9w).2.length = 7 :=
  c9_destination_subsets gameC9w true none rfl rfl

/-- C8 counterexample: in the ContinuingVisibleDraw phase with an
all-wildcard face-up window and an empty hidden deck, `validMoves`
returns no action at all. -/
theorem c8_continuing_draw_counterexample :
    (validMoves gameC8bad).2 = [] := by
  decide

/-- C8 amended: in the ContinuingVisibleDraw phase (`action == 1`) the
enumeration is non-empty iff some face-up card is not a wildcard or the
hidden deck is non-empty; in ContinuingHiddenDraw (`action == 2`) iff the
face-up window or the hidden deck is non-empty; in
AwaitingDestinationDecision (`action == 3`) it is always non-empty. -/
theorem c8_nonfree_phases_amended (g : Game) (a : Action)
    (hover : g.gameOver = false) (hmp : g.movePerforming = some a) :
    (a.kind = 1 → ((validMoves g).2 ≠ [] ↔
      (g.faceUpCards.any (fun c => c != "WILD") = true ∨ 0 < g.trainCarDeck.length))) ∧
    (a.kind = 2 → ((validMoves g).2 ≠ [] ↔
      (g.faceUpCards ≠ [] ∨ 0 < g.trainCarDeck.length))) ∧
    (a.kind = 3 → (validMoves g).2 ≠ []) := by
  have hv : (validMoves g).2 = rawActions g := by
    rw [validMoves_snd, hover]
    simp
  rw [hv]
  cases a with
  | claimRoute r cu =>
    refine ⟨fun h => absurd h (by simp [Action.kind]), fun h => absurd h (by simp [Action.kind]),
      fun h => absurd h (by simp [Action.kind])⟩
  | drawFaceUp c =>
    refine ⟨fun _ => ?_, fun h => absurd h (by simp [Action.kind]),
      fun h => absurd h (by simp [Action.kind])⟩
    simp only [rawActions, hmp]
    by_cases hd : 1 ≤ g.trainCarDeck.length
    · simp [hd]
      omega
    · simp only [hd, if_false]
      simp only [List.append_nil]
      constructor
      · intro hne
        left
        have : g.faceUpCards.filter (fun c => c != "WILD") ≠ [] := by
          intro hnil
          exact hne (by simp [hnil])
        rw [List.any_eq_true]
        obtain ⟨x, hx⟩ := List.exists_mem_of_ne_nil _ this
        have hx2 := List.mem_filter.mp hx
        exact ⟨x, hx2.1, hx2.2⟩
      · intro hor
        rcases hor with hany | hdeck
        · rw [List.any_eq_true] at hany
          obtain ⟨x, hxmem, hxp⟩ := hany
          intro hnil
          rw [List.map_eq_nil_iff] at hnil
          have : x ∈ g.faceUpCards.filter (fun c => c != "WILD") :=
            List.mem_filter.mpr ⟨hxmem, hxp⟩
          rw [hnil] at this
          exact absurd this (List.not_mem_nil x)
        · omega
  | drawFaceDown =>
    refine ⟨fun h => absurd h (by simp [Action.kind]), fun _ => ?_,
      fun h => absurd h (by simp [Action.kind])⟩
    simp only [rawActions, hmp]
    by_cases hd : 1 ≤ g.trainCarDeck.length
    · simp [hd]
      omega
    · simp only [hd, if_false]
      simp only [List.append_nil]
      constructor
      · intro hne
        left
        intro hnil
        exact hne (by simp [hnil])
      · intro hor
        rcases hor with hfu | hdeck
        · intro hnil
          rw [List.map_eq_nil_iff] at hnil
          exact hfu hnil
        · omega
  | destDeal ask tds =>
    refine ⟨fun h => absurd h (by simp [Action.kind]), fun h => absurd h (by simp [Action.kind]),
      fun _ => ?_⟩
    simp [rawActions, hmp, listDestTakes]

/-- Witness for the amended C8 at the concrete state `gameC8w` (one
wildcard face-up, one hidden card): the ContinuingVisibleDraw clause
applies with a true right-hand side. -/
theorem c8_nonfree_phases_amended_witness :
    ((Action.drawFaceUp "BLUE").kind = 1 → ((validMoves gameC8w).2 ≠ [] ↔
      (gameC8w.faceUpCards.any (fun c => c != "WILD") = true ∨ 0 < gameC8w.trainCarDeck.length))) ∧
    ((Action.drawFaceUp "BLUE").kind = 2 → ((validMoves gameC8w).2 ≠ [] ↔
      (gameC8w.faceUpCards ≠ [] ∨ 0 < gameC8w.trainCarDeck.length))) ∧
    ((Action.drawFaceUp "BLUE").kind = 3 → (validMoves gameC8w).2 ≠ []) :=
  c8_nonfree_phases_amended gameC8w (Action.drawFaceUp "BLUE") rfl rfl

/-- C1 refuted on the code: in Scenario C (active player holds exactly 4
wildcards, one unowned gray route of length 3) `validMoves` emits TWO
identical pure-wildcard ClaimRoute actions, not exactly one, because the
gray-route loop of line 273 iterates over all 9 keys of `color_indexing`
including WILD, and line 289 then appends the pure-wildcard action a
second time.  Moreover with 2 wildcards and a gray route of length 4 the
WILD iteration emits a pure-wildcard payment (counting the same 2
wildcards twice), although the wildcard count is below the length. -/
theorem c1_gray_wildcard_refuted :
    (validMoves gameC1).2 =
      [Action.claimRoute grayRouteC1 ["WILD"], Action.claimRoute grayRouteC1 ["WILD"]] ∧
    (validMoves gameC1b).2 = [Action.claimRoute grayRouteC1b ["WILD", "WILD"]] := by
  decide

/-- C3 refuted on the code: `Game.clone` passes the ORIGINAL player
objects to `Game.__init__`, whose player loop (lines 198-200) overwrites
each original hand with 4 cards drawn from the freshly shuffled clone
deck.  Evaluated here with a fresh deck of 110 BLUE cards: the original
5-RED hand and 1-GREEN hand both become 4 BLUE cards, so the original
GameState is mutated by the clone call (whatever the shuffle outcome,
since every hand is forced to a 4-card draw from the new deck). -/
theorem c3_clone_mutates_original :
    (clonePlayersAfter (List.replicate 110 "BLUE") [p0C3, p1C3]).map Agent.trainCards =
      [["BLUE", "BLUE", "BLUE", "BLUE"], ["BLUE", "BLUE", "BLUE", "BLUE"]] ∧
    [p0C3, p1C3].map Agent.trainCards =
      [["RED", "RED", "RED", "RED", "RED"], ["GREEN"]] ∧
    clonePlayersAfter (List.replicate 110 "BLUE") [p0C3, p1C3] ≠ [p0C3, p1C3] := by
  decide

theorem filter_isClaim_map_drawFaceUp (l : List String) :
    (l.map Action.drawFaceUp).filter Action.isClaim = [] := by
  induction l with
  | nil => rfl
  | cons c cs ih => simp [List.filter_cons, Action.isClaim, ih]

theorem perColorActions_all_claims (trainCards : List String) (numWilds weight : Nat)
    (rt : Route) (color : String) :
    ∀ a ∈ perColorActions trainCards numWilds weight rt color, a.isClaim = true := by
  intro a ha
  dsimp only [perColorActions] at ha
  have hex : ∃ rt2 cu, a = Action.claimRoute rt2 cu := by
    split_ifs at ha <;> simp at ha <;>
      first
        | exact ⟨_, _, ha⟩
        | (rcases ha with h | h <;> exact ⟨_, _, h⟩)
  obtain ⟨rt2, cu, rfl⟩ := hex
  rfl

theorem routeActions_all_claims (trainCards : List String) (numWilds : Nat) (e : EdgeData) :
    ∀ a ∈ routeActions trainCards numWilds e, a.isClaim = true := by
  intro a ha
  dsimp only [routeActions] at ha
  split_ifs at ha
  · simp at ha
  · exact perColorActions_all_claims _ _ _ _ _ a ha
  · rw [List.mem_append] at ha
    rcases ha with hfm | hw
    · rw [List.mem_flatMap] at hfm
      obtain ⟨c, _, hc⟩ := hfm
      exact perColorActions_all_claims _ _ _ _ _ a hc
    · simp at hw
      rw [hw]
      rfl
  · rw [List.append_nil, List.mem_flatMap] at ha
    obtain ⟨c, _, hc⟩ := ha
    exact perColorActions_all_claims _ _ _ _ _ a hc

theorem routeActions_of_owner_none (trainCards : List String) (numWilds : Nat)
    (e : EdgeData) (h : e.owner = none) :
    routeActions trainCards numWilds e = [] := by
  simp [routeActions, h]

theorem foldl_initBoard_owner (routes : List Route) :
    ∀ acc : List EdgeData, (∀ e ∈ acc, e.owner = none) →
      ∀ e ∈ routes.foldl
        (fun b r => if hasEdge b r.city1 r.city2 then b else b ++ [routeToEdge r]) acc,
        e.owner = none := by
  induction routes with
  | nil =>
    intro acc h e he
    exact h e he
  | cons r rs ih =>
    intro acc h e he
    rw [List.foldl_cons] at he
    refine ih _ ?_ e he
    intro e' he'
    split_ifs at he'
    · exact h e' he'
    · rw [List.mem_append] at he'
      rcases he' with h1 | h2
      · exact h e' h1
      · simp at h2
        rw [h2]
        rfl

theorem initBoard_owner_none (routes : List Route) (players : Nat) :
    ∀ e ∈ initBoard routes players, e.owner = none := by
  unfold initBoard
  split_ifs
  · intro e he
    rw [List.mem_map] at he
    obtain ⟨r, _, rfl⟩ := he
    rfl
  · exact foldl_initBoard_owner routes [] (by simp)

/-- C4: in the FreeChoice phase, on any board produced by `initBoard`
(where every edge has `owner = None`), `validMoves` emits no ClaimRoute
action at all, whatever cards the active player holds, because line 252
skips every edge whose owner differs from the empty string. -/
theorem c4_fresh_board_no_claims (routes : List Route) (players : Nat) (g : Game)
    (hmp : g.movePerforming = none) (hb : g.board = initBoard routes players) :
    ((validMoves g).2.filter Action.isClaim) = [] := by
  rw [validMoves_snd]
  by_cases hg : g.gameOver
  · simp [hg]
  · simp only [hg, if_false, Bool.false_eq_true]
    simp only [rawActions, hmp]
    rw [List.filter_append, List.filter_append, List.filter_append]
    have h1 : (g.board.flatMap
        (routeActions g.makingNextMove.trainCards
          (g.makingNextMove.trainCards.count "WILD"))).filter Action.isClaim = [] := by
      have hall : g.board.flatMap
          (routeActions g.makingNextMove.trainCards
            (g.makingNextMove.trainCards.count "WILD")) = [] := by
        rw [List.flatMap_eq_nil_iff]
        intro e he
        exact routeActions_of_owner_none _ _ e (initBoard_owner_none routes players e (hb ▸ he))
      rw [hall]
      rfl
    have h2 : ((if 0 < g.faceUpCards.length then g.faceUpCards.map Action.drawFaceUp
        else []).filter Action.isClaim) = [] := by
      split_ifs
      · exact filter_isClaim_map_drawFaceUp _
      · rfl
    have h3 : ((if 0 < g.trainCarDeck.length then [Action.drawFaceDown]
        else []).filter Action.isClaim) = [] := by
      split_ifs <;> simp [List.filter_cons, Action.isClaim]
    have h4 : ((if 3 ≤ g.destinationsDeck.length then [Action.destDeal true none]
        else []).filter Action.isClaim) = [] := by
      split_ifs <;> simp [List.filter_cons, Action.isClaim]
    rw [h1, h2, h3, h4]
    rfl

/-- Witness for C4 at the concrete fresh state `gameC4`, whose player
holds 3 RED cards matching the RED route of length 3 on the board: still
no ClaimRoute action is enumerated. -/
theorem c4_fresh_board_no_claims_witness :
    ((validMoves gameC4).2.filter Action.isClaim) = [] :=
  c4_fresh_board_no_claims [routeC4] 2 gameC4 rfl rfl

theorem perColorActions_eq_spec (trainCards : List String) (numWilds weight : Nat)
    (rt : Route) (color : String) :
    perColorActions trainCards numWilds weight rt color =
      specConcreteVariants (trainCards.count color) numWilds weight rt color := by
  dsimp only [perColorActions, specConcreteVariants]
  split_ifs <;> first | rfl | (exfalso; omega)

theorem specConcreteVariants_ne_nil_iff (numColor numWilds weight : Nat)
    (rt : Route) (color : String) :
    specConcreteVariants numColor numWilds weight rt color ≠ [] ↔
      (weight ≤ numColor + numWilds ∧ 0 < numColor) := by
  dsimp only [specConcreteVariants]
  split_ifs <;> simp_all <;> omega

/-- C2: for a FreeChoice state whose board consists of one unowned route
of concrete (non-gray) color, the ClaimRoute actions emitted by
`validMoves` are exactly the payment variants prescribed by the spec
section 4.3 three-way numColor analysis, and at least one ClaimRoute
action is emitted iff the matching-color count plus the wildcard count
reaches the length and the matching-color count is positive. -/
theorem c2_concrete_route_enumeration (g : Game) (e : EdgeData)
    (hover : g.gameOver = false) (hmp : g.movePerforming = none)
    (hb : g.board = [e]) (how : e.owner = some "") (hc : e.color ≠ "GRAY") :
    ((validMoves g).2.filter Action.isClaim) =
      specConcreteVariants (g.makingNextMove.trainCards.count e.color)
        (g.makingNextMove.trainCards.count "WILD") e.weight
        ⟨e.city1, e.city2, e.weight, e.color, e.index⟩ e.color ∧
    (((validMoves g).2.filter Action.isClaim) ≠ [] ↔
      (e.weight ≤ g.makingNextMove.trainCards.count e.color +
          g.makingNextMove.trainCards.count "WILD" ∧
        0 < g.makingNextMove.trainCards.count e.color)) := by
  have hv : ((validMoves g).2.filter Action.isClaim) =
      specConcreteVariants (g.makingNextMove.trainCards.count e.color)
        (g.makingNextMove.trainCards.count "WILD") e.weight
        ⟨e.city1, e.city2, e.weight, e.color, e.index⟩ e.color := by
    rw [validMoves_snd, hover]
    simp only [Bool.false_eq_true, if_false]
    simp only [rawActions, hmp, hb]
    rw [List.filter_append, List.filter_append, List.filter_append]
    have h2 : ((if 0 < g.faceUpCards.length then g.faceUpCards.map Action.drawFaceUp
        else []).filter Action.isClaim) = [] := by
      split_ifs
      · exact filter_isClaim_map_drawFaceUp _
      · rfl
    have h3 : ((if 0 < g.trainCarDeck.length then [Action.drawFaceDown]
        else []).filter Action.isClaim) = [] := by
      split_ifs <;> simp [List.filter_cons, Action.isClaim]
    have h4 : ((if 3 ≤ g.destinationsDeck.length then [Action.destDeal true none]
        else []).filter Action.isClaim) = [] := by
      split_ifs <;> simp [List.filter_cons, Action.isClaim]
    rw [h2, h3, h4]
    have h1 : ([e].flatMap
        (routeActions g.makingNextMove.trainCards
          (g.makingNextMove.trainCards.count "WILD"))).filter Action.isClaim =
        routeActions g.makingNextMove.trainCards
          (g.makingNextMove.trainCards.count "WILD") e := by
      simp only [List.flatMap_cons, List.flatMap_nil, List.append_nil]
      exact List.filter_eq_self.mpr (routeActions_all_claims _ _ e)
    rw [h1]
    have hre : routeActions g.makingNextMove.trainCards
        (g.makingNextMove.trainCards.count "WILD") e =
        perColorActions g.makingNextMove.trainCards
          (g.makingNextMove.trainCards.count "WILD") e.weight
          ⟨e.city1, e.city2, e.weight, e.color, e.index⟩ e.color := by
      simp [routeActions, how, hc]
    rw [hre, perColorActions_eq_spec]
    simp
  exact ⟨hv, hv ▸ specConcreteVariants_ne_nil_iff _ _ _ _ _⟩

/-- Witness for C2 at Scenario A of the spec: active player holds 3 RED
cards and no wildcard, one unowned RED route of length 3 on the board. -/
theorem c2_concrete_route_enumeration_witness :
    ((validMoves gameC2).2.filter Action.isClaim) =
      specConcreteVariants (gameC2.makingNextMove.trainCards.count edgeC2.color)
        (gameC2.makingNextMove.trainCards.count "WILD") edgeC2.weight
        ⟨edgeC2.city1, edgeC2.city2, edgeC2.weight, edgeC2.color, edgeC2.index⟩ edgeC2.color ∧
    (((validMoves gameC2).2.filter Action.isClaim) ≠ [] ↔
      (edgeC2.weight ≤ gameC2.makingNextMove.trainCards.count edgeC2.color +
          gameC2.makingNextMove.trainCards.count "WILD" ∧
        0 < gameC2.makingNextMove.trainCards.count edgeC2.color)) :=
  c2_concrete_route_enumeration gameC2 edgeC2 rfl rfl rfl rfl (by decide)

theorem Deck.insert_eq_reverse_append (cards deck : List α) :
    Deck.insert cards deck = cards.reverse ++ deck := by
  induction cards generalizing deck with
  | nil => rfl
  | cons c cs ih =>
    show Deck.insert cs (c :: deck) = (c :: cs).reverse ++ deck
    rw [ih]
    simp

/-- C5: `insert(cards)` appends the cards at the end opposite the draw end
(in the draw-order view `d.reverse`, the inserted cards sit after all
previously present cards, in their given relative order), and `count()`
grows by exactly the number of inserted cards. -/
theorem c5_insert_appends_opposite_end (cards deck : List α) :
    (Deck.insert cards deck).reverse = deck.reverse ++ cards ∧
    Deck.count (Deck.insert cards deck) = Deck.count deck + cards.length := by
  rw [Deck.insert_eq_reverse_append]
  constructor
  · simp
  · simp [Deck.count, Nat.add_comm]

/-- C6 refuted on the code: `Deck.shuffle` on the non-empty deck `["RED"]`
does not permute the deck but raises `TypeError`, because `random.shuffle`
returns `None` and line 50 then evaluates `deque(None)`.  (The spec and the
docstring of `Deck.shuffle` say a non-empty deck is shuffled in place.) -/
theorem c6_shuffle_nonempty_deck_raises :
    Deck.shuffleStep (["RED"] : List String) =
      Except.error "TypeError: NoneType object is not iterable" := rfl

/-- C7 counterexample: the claim says `draw(n)` fails iff `count() < n`.
For the empty deck and `n = 0` we have `count() = 0 ≥ 0 = n`, yet the code
fails on the line-56 assertion. -/
theorem c7_draw_counterexample :
    Deck.draw ([] : List String) 0 =
      Except.error "AssertionError: cannot draw from an empty deck" ∧
    ¬ (Deck.count ([] : List String) < 0) := by
  constructor
  · rfl
  · decide

/-- C7 amended: `draw(n)` succeeds iff the deck is non-empty AND at least
`n` cards remain; on success it removes and returns exactly `n` cards taken
from the draw end (the returned cards are the first `n` cards of the
draw-order view, and together with the remaining deck they account for the
whole deck), never silently truncating. -/
theorem c7_draw_amended (cards : List α) (number : Nat) :
    ((∃ p, Deck.draw cards number = Except.ok p) ↔
      0 < cards.length ∧ number ≤ cards.length) ∧
    (∀ drawn rest, Deck.draw cards number = Except.ok (drawn, rest) →
      drawn.length = number ∧ drawn ++ rest.reverse = cards.reverse) := by
  unfold Deck.draw
  split_ifs with h1 h2
  · constructor
    · constructor
      · rintro ⟨p, hp⟩
        exact absurd hp (by simp)
      · intro h
        omega
    · intro drawn rest h
      exact absurd h (by simp)
  · constructor
    · constructor
      · rintro ⟨p, hp⟩
        exact absurd hp (by simp)
      · intro h
        omega
    · intro drawn rest h
      exact absurd h (by simp)
  · constructor
    · constructor
      · intro _
        omega
      · intro _
        exact ⟨_, rfl⟩
    · intro drawn rest h
      simp only [Except.ok.injEq, Prod.mk.injEq] at h
      obtain ⟨hd, hr⟩ := h
      subst hd
      subst hr
      constructor
      · simp
        omega
      · simp [List.take_append_drop]

/-- Witness for the amended C7 at the concrete deck `["A","B","C"]` with
`n = 2`: the two drawn cards are `["C","B"]` (draw end first) and the
remaining deck is `["A"]`. -/
theorem c7_draw_amended_witness :
    (["C", "B"] : List String).length = 2 ∧
    (["C", "B"] : List String) ++ (["A"] : List String).reverse =
      (["A", "B", "C"] : List String).reverse :=
  (c7_draw_amended (["A", "B", "C"] : List String) 2).2 ["C", "B"] ["A"] rfl

end TTR

